import Mathlib

/-!
Shallow embedding of `patoessy/vulkano` for specification checking.

Embedded source files:
* `src/vulkano/src/pipeline/mod.rs` — `PipelineShaderStageCreateInfo::validate`,
  `StateMode` conversions.
* `src/examples/src/bin/multi_window_game_of_life/main.rs` — `process_event`,
  `compute_then_render`.
* `src/examples/src/bin/interactive_fractal/place_over_frame.rs` —
  `RenderPassPlaceOverFrame::render`.

Machine integers (`u32`) are embedded as `Nat` with explicit bounds
(`U32_MAX`) where the source performs checked arithmetic.  Fallible code
returns `Option`/`Except`; panics (`unwrap`, `unreachable!`) are a dedicated
result alternative.
-/

namespace Vulkano

/-- `u32::MAX`. -/
def U32_MAX : Nat := 2 ^ 32 - 1

/-- `ShaderStage` (crate::shader), as matched by `validate`. -/
inductive ShaderStage where
  | vertex
  | tessellationControl
  | tessellationEvaluation
  | geometry
  | fragment
  | compute
  | raygen
  | anyHit
  | closestHit
  | miss
  | intersection
  | callable
  | task
  | mesh
  | subpassShading
deriving DecidableEq, Repr

/-- A `[u32; 3]` value, indexed as `[0] = x`, `[1] = y`, `[2] = z`. -/
structure U32x3 where
  x : Nat
  y : Nat
  z : Nat
deriving DecidableEq, Repr

/-- `into_iter()` order of a `[u32; 3]`. -/
def U32x3.toList (v : U32x3) : List Nat := [v.x, v.y, v.z]

/-- `u32::checked_mul`: the product, unless it overflows `u32`. -/
def checkedMul (a b : Nat) : Option Nat :=
  if a * b ≤ U32_MAX then some (a * b) else none

/-- `iter.try_fold(init, u32::checked_mul)`: left fold that fails on the
first overflowing multiplication. -/
def tryFoldCheckedMul : Nat → List Nat → Option Nat
  | acc, [] => some acc
  | acc, v :: rest =>
    match checkedMul acc v with
    | none => none
    | some acc2 => tryFoldCheckedMul acc2 rest

/-- `u32::is_power_of_two`. -/
def isPowerOfTwo (n : Nat) : Bool := n != 0 && (n &&& (n - 1)) == 0

/-- `crate::ValidationError` (the fields `validate` constructs):
free-form `context`/`problem` strings, required features, and the list of
cited VUIDs. -/
structure ValidationError where
  context : String := ""
  problem : String := ""
  requiresOneOf : List (List String) := []
  vuids : List String := []
deriving DecidableEq, Repr

/-- Modelled from the spec: `ValidationError::set_vuids` (crate root, outside
`src/`) replaces the error's rule citation: "propagation is a direct return
of a rule citation". -/
def setVuids (e : ValidationError) (v : List String) : ValidationError :=
  { e with vuids := v }

/-- Modelled from the spec: `ValidationError::add_context` (crate root,
outside `src/`) prefixes the error's context path. -/
def addContext (e : ValidationError) (c : String) : ValidationError :=
  if e.context = "" then { e with context := c }
  else { e with context := c ++ "." ++ e.context }

/-- Outcome of `validate`: `Ok(())`, `Err(Box<ValidationError>)`, or a panic
(the `unreachable!()` arm). -/
inductive VResult where
  | ok
  | err (e : ValidationError)
  | panicked
deriving DecidableEq, Repr

/-- `VResult.isErr r` holds exactly on `err`. -/
def VResult.isErr : VResult → Bool
  | .err _ => true
  | _ => false

/-- The device features read by `validate`
(`device.enabled_features()`). -/
structure Features where
  tessellation_shader : Bool
  geometry_shader : Bool
  task_shader : Bool
  mesh_shader : Bool
  subgroup_size_control : Bool
deriving DecidableEq, Repr

/-- `ShaderStages` bit-flag set, as a list of stages;
`Default::default()` is the empty set. -/
abbrev ShaderStages := List ShaderStage

/-- `ShaderStages::contains_enum`. -/
def ShaderStages.contains_enum (s : ShaderStages) (stage : ShaderStage) : Bool :=
  s.contains stage

/-- The physical-device properties read by `validate`
(`device.physical_device().properties()`).  Optional properties are `Option`
as in the source (`None` when the extension providing them is absent). -/
structure Properties where
  max_compute_work_group_size : U32x3
  max_compute_work_group_invocations : Nat
  max_task_work_group_size : Option U32x3
  max_task_work_group_invocations : Option Nat
  max_mesh_work_group_size : Option U32x3
  max_mesh_work_group_invocations : Option Nat
  required_subgroup_size_stages : Option ShaderStages
  min_subgroup_size : Option Nat
  max_subgroup_size : Option Nat
  max_compute_workgroup_subgroups : Option Nat
deriving DecidableEq, Repr

/-- The parts of `Device` that `validate` reads. -/
structure Device where
  enabled_features : Features
  properties : Properties
deriving DecidableEq, Repr

/-- Modelled from the spec: the data `validate` extracts from
`entry_point.info()` (the `EntryPoint`/`ShaderExecution` types live in the
shader-module code outside `src/`): the `ShaderStage` obtained by
`ShaderStage::from(&entry_point_info.execution)`, and the `local_size`
carried by a `ShaderExecution::Compute` execution (`none` for every other
execution kind). -/
structure EntryPointInfo where
  stage : ShaderStage
  computeLocalSize : Option U32x3
deriving DecidableEq, Repr

/-- `PipelineShaderStageCreateInfo` (the fields `validate` reads; `flags`
is validated by generated code outside `src/`, abstracted below). -/
structure PipelineShaderStageCreateInfo where
  entry_point : EntryPointInfo
  required_subgroup_size : Option Nat
deriving DecidableEq, Repr

/-- The `match stage_enum` block of `validate` (lines 376–452): the
per-stage feature gates.  Returns the error the block early-returns with,
or `none` when the block falls through. -/
def stageFeatureCheck (stage_enum : ShaderStage) (device : Device) :
    Option ValidationError :=
  match stage_enum with
  | .tessellationControl | .tessellationEvaluation =>
    if !device.enabled_features.tessellation_shader then
      some { context := "entry_point",
             problem := "specifies a `ShaderStage::TessellationControl` or `ShaderStage::TessellationEvaluation` entry point",
             requiresOneOf := [["Feature(tessellation_shader)"]],
             vuids := ["VUID-VkPipelineShaderStageCreateInfo-stage-00705"] }
    else none
  | .geometry =>
    if !device.enabled_features.geometry_shader then
      some { context := "entry_point",
             problem := "specifies a `ShaderStage::Geometry` entry point",
             requiresOneOf := [["Feature(geometry_shader)"]],
             vuids := ["VUID-VkPipelineShaderStageCreateInfo-stage-00704"] }
    else none
  | .task =>
    if !device.enabled_features.task_shader then
      some { context := "entry_point",
             problem := "specifies a `ShaderStage::Task` entry point",
             requiresOneOf := [["Feature(task_shader)"]],
             vuids := ["VUID-VkPipelineShaderStageCreateInfo-stage-02092"] }
    else none
  | .mesh =>
    if !device.enabled_features.mesh_shader then
      some { context := "entry_point",
             problem := "specifies a `ShaderStage::Mesh` entry point",
             requiresOneOf := [["Feature(mesh_shader)"]],
             vuids := ["VUID-VkPipelineShaderStageCreateInfo-stage-02091"] }
    else none
  | _ => none

/-- The `ShaderStage::Compute` arm of the workgroup-size block
(lines 460–507): per-dimension checks against
`max_compute_work_group_size`, then the checked product filtered by
`max_compute_work_group_invocations`. -/
def computeWorkgroupCheck (local_size : U32x3) (properties : Properties) :
    Except ValidationError Nat :=
  if local_size.x > properties.max_compute_work_group_size.x then
    .error { problem := "the `local_size_x` of `entry_point` is greater than `max_compute_work_group_size[0]`",
             vuids := ["VUID-RuntimeSpirv-x-06429"] }
  else if local_size.y > properties.max_compute_work_group_size.y then
    .error { problem := "the `local_size_y` of `entry_point` is greater than `max_compute_work_group_size[1]`",
             vuids := ["VUID-RuntimeSpirv-x-06430"] }
  else if local_size.z > properties.max_compute_work_group_size.z then
    .error { problem := "the `local_size_x` of `entry_point` is greater than `max_compute_work_group_size[2]`",
             vuids := ["VUID-RuntimeSpirv-x-06431"] }
  else
    match Option.filter
        (fun x => decide (x ≤ properties.max_compute_work_group_invocations))
        (tryFoldCheckedMul 1 local_size.toList) with
    | none =>
      .error { problem := "the product of the `local_size_x`, `local_size_y` and `local_size_z` of `entry_point` is greater than the `max_compute_work_group_invocations` device limit",
               vuids := ["VUID-RuntimeSpirv-x-06432"] }
    | some workgroup_size => .ok workgroup_size

/-- The `ShaderStage::Task` arm of the workgroup-size block
(lines 508–559); absent properties default (`unwrap_or_default`). -/
def taskWorkgroupCheck (local_size : U32x3) (properties : Properties) :
    Except ValidationError Nat :=
  if local_size.x > (properties.max_task_work_group_size.getD ⟨0, 0, 0⟩).x then
    .error { problem := "the `local_size_x` of `entry_point` is greater than `max_task_work_group_size[0]`",
             vuids := ["VUID-RuntimeSpirv-TaskEXT-07291"] }
  else if local_size.y > (properties.max_task_work_group_size.getD ⟨0, 0, 0⟩).y then
    .error { problem := "the `local_size_y` of `entry_point` is greater than `max_task_work_group_size[1]`",
             vuids := ["VUID-RuntimeSpirv-TaskEXT-07292"] }
  else if local_size.z > (properties.max_task_work_group_size.getD ⟨0, 0, 0⟩).z then
    .error { problem := "the `local_size_x` of `entry_point` is greater than `max_task_work_group_size[2]`",
             vuids := ["VUID-RuntimeSpirv-TaskEXT-07293"] }
  else
    match Option.filter
        (fun x => decide (x ≤ properties.max_task_work_group_invocations.getD 0))
        (tryFoldCheckedMul 1 local_size.toList) with
    | none =>
      .error { problem := "the product of the `local_size_x`, `local_size_y` and `local_size_z` of `entry_point` is greater than the `max_task_work_group_invocations` device limit",
               vuids := ["VUID-RuntimeSpirv-TaskEXT-07294"] }
    | some workgroup_size => .ok workgroup_size

/-- The `ShaderStage::Mesh` arm of the workgroup-size block
(lines 560–611). -/
def meshWorkgroupCheck (local_size : U32x3) (properties : Properties) :
    Except ValidationError Nat :=
  if local_size.x > (properties.max_mesh_work_group_size.getD ⟨0, 0, 0⟩).x then
    .error { problem := "the `local_size_x` of `entry_point` is greater than `max_mesh_work_group_size[0]`",
             vuids := ["VUID-RuntimeSpirv-MeshEXT-07295"] }
  else if local_size.y > (properties.max_mesh_work_group_size.getD ⟨0, 0, 0⟩).y then
    .error { problem := "the `local_size_y` of `entry_point` is greater than `max_mesh_work_group_size[1]`",
             vuids := ["VUID-RuntimeSpirv-MeshEXT-07296"] }
  else if local_size.z > (properties.max_mesh_work_group_size.getD ⟨0, 0, 0⟩).z then
    .error { problem := "the `local_size_x` of `entry_point` is greater than `max_mesh_work_group_size[2]`",
             vuids := ["VUID-RuntimeSpirv-MeshEXT-07297"] }
  else
    match Option.filter
        (fun x => decide (x ≤ properties.max_mesh_work_group_invocations.getD 0))
        (tryFoldCheckedMul 1 local_size.toList) with
    | none =>
      .error { problem := "the product of the `local_size_x`, `local_size_y` and `local_size_z` of `entry_point` is greater than the `max_mesh_work_group_invocations` device limit",
               vuids := ["VUID-RuntimeSpirv-MeshEXT-07298"] }
    | some workgroup_size => .ok workgroup_size

/-- The `if let Some(required_subgroup_size)` block of `validate`
(lines 619–696): the five subgroup-size conditions in source order, then
the compute workgroup/subgroup budget check. -/
def requiredSubgroupSizeChecks (required_subgroup_size : Nat)
    (stage_enum : ShaderStage) (device : Device)
    (workgroup_size : Option Nat) : Option ValidationError :=
  if !device.enabled_features.subgroup_size_control then
    some { context := "required_subgroup_size",
           problem := "is `Some`",
           requiresOneOf := [["Feature(subgroup_size_control)"]],
           vuids := ["VUID-VkPipelineShaderStageCreateInfo-pNext-02755"] }
  else if !((device.properties.required_subgroup_size_stages.getD
      []).contains_enum stage_enum) then
    some { problem := "`required_subgroup_size` is `Some`, but the `required_subgroup_size_stages` device property does not contain the shader stage of `entry_point`",
           vuids := ["VUID-VkPipelineShaderStageCreateInfo-pNext-02755"] }
  else if !(isPowerOfTwo required_subgroup_size) then
    some { context := "required_subgroup_size",
           problem := "is not a power of 2",
           vuids := ["VUID-VkPipelineShaderStageRequiredSubgroupSizeCreateInfo-requiredSubgroupSize-02760"] }
  else if required_subgroup_size < device.properties.min_subgroup_size.getD 1 then
    some { context := "required_subgroup_size",
           problem := "is less than the `min_subgroup_size` device limit",
           vuids := ["VUID-VkPipelineShaderStageRequiredSubgroupSizeCreateInfo-requiredSubgroupSize-02761"] }
  else if required_subgroup_size > device.properties.max_subgroup_size.getD 128 then
    some { context := "required_subgroup_size",
           problem := "is greater than the `max_subgroup_size` device limit",
           vuids := ["VUID-VkPipelineShaderStageRequiredSubgroupSizeCreateInfo-requiredSubgroupSize-02762"] }
  else
    match workgroup_size with
    | some wg =>
      if stage_enum = .compute then
        if wg > ((checkedMul required_subgroup_size
            (device.properties.max_compute_workgroup_subgroups.getD 0)).getD U32_MAX) then
          some { problem := "the product of the `local_size_x`, `local_size_y` and `local_size_z` of `entry_point` is greater than the the product of `required_subgroup_size` and the `max_compute_workgroup_subgroups` device limit",
                 vuids := ["VUID-VkPipelineShaderStageCreateInfo-pNext-02756"] }
        else none
      else none
    | none => none

/-- Tail of `validate` after the workgroup-size block: the
`required_subgroup_size` block followed by `Ok(())`. -/
def finishValidate (required_subgroup_size : Option Nat)
    (stage_enum : ShaderStage) (device : Device)
    (workgroup_size : Option Nat) : VResult :=
  match required_subgroup_size with
  | some rss =>
    match requiredSubgroupSizeChecks rss stage_enum device workgroup_size with
    | some e => .err e
    | none => .ok
  | none => .ok

/-- `PipelineShaderStageCreateInfo::validate` (lines 342–699).
`flagsCheck` and `stageCheck` are the results of
`flags.validate_device(device)` and `stage_enum.validate_device(device)`,
whose bodies are macro-generated outside `src/`; `validate` maps any error
they produce and early-returns (`?`).  The `unreachable!()` arm of the
workgroup-size block is `panicked`. -/
def PipelineShaderStageCreateInfo.validate
    (self : PipelineShaderStageCreateInfo) (device : Device)
    (flagsCheck stageCheck : Option ValidationError) : VResult :=
  match flagsCheck with
  | some e =>
    .err (setVuids (addContext e "flags")
      ["VUID-VkPipelineShaderStageCreateInfo-flags-parameter"])
  | none =>
  match stageCheck with
  | some e =>
    .err (setVuids (addContext e "entry_point.info().execution")
      ["VUID-VkPipelineShaderStageCreateInfo-stage-parameter"])
  | none =>
  match stageFeatureCheck self.entry_point.stage device with
  | some e => .err e
  | none =>
  match self.entry_point.computeLocalSize, self.entry_point.stage with
  | some local_size, .compute =>
    match computeWorkgroupCheck local_size device.properties with
    | .error e => .err e
    | .ok workgroup_size =>
      finishValidate self.required_subgroup_size self.entry_point.stage device
        (some workgroup_size)
  | some local_size, .task =>
    match taskWorkgroupCheck local_size device.properties with
    | .error e => .err e
    | .ok workgroup_size =>
      finishValidate self.required_subgroup_size self.entry_point.stage device
        (some workgroup_size)
  | some local_size, .mesh =>
    match meshWorkgroupCheck local_size device.properties with
    | .error e => .err e
    | .ok workgroup_size =>
      finishValidate self.required_subgroup_size self.entry_point.stage device
        (some workgroup_size)
  | some _, _ => .panicked
  | none, _ =>
    finishValidate self.required_subgroup_size self.entry_point.stage device none

/-- The VUIDs citable by the four compute workgroup-size checks. -/
def computeWorkgroupVuids : List (List String) :=
  [["VUID-RuntimeSpirv-x-06429"], ["VUID-RuntimeSpirv-x-06430"],
   ["VUID-RuntimeSpirv-x-06431"], ["VUID-RuntimeSpirv-x-06432"]]

/-- A device with the four per-stage shader features replaced and
everything else unchanged. -/
def Device.setStageFeatures (d : Device) (t g ta me : Bool) : Device :=
  { d with enabled_features := { d.enabled_features with
      tessellation_shader := t,
      geometry_shader := g,
      task_shader := ta,
      mesh_shader := me } }

/-- Sample features: everything enabled. -/
def featuresAll : Features :=
  { tessellation_shader := true, geometry_shader := true, task_shader := true,
    mesh_shader := true, subgroup_size_control := true }

/-- Sample features: everything disabled. -/
def featuresNone : Features :=
  { tessellation_shader := false, geometry_shader := false,
    task_shader := false, mesh_shader := false, subgroup_size_control := false }

/-- Sample device limits. -/
def propsBasic : Properties :=
  { max_compute_work_group_size := ⟨1024, 1024, 64⟩
    max_compute_work_group_invocations := 1024
    max_task_work_group_size := some ⟨128, 128, 128⟩
    max_task_work_group_invocations := some 128
    max_mesh_work_group_size := some ⟨128, 128, 128⟩
    max_mesh_work_group_invocations := some 128
    required_subgroup_size_stages := some [ShaderStage.compute]
    min_subgroup_size := some 8
    max_subgroup_size := some 64
    max_compute_workgroup_subgroups := some 16 }

/-- Sample device: all features, basic limits. -/
def devBasic : Device := { enabled_features := featuresAll, properties := propsBasic }

/-- Sample device: no features, basic limits. -/
def devNoFeatures : Device :=
  { enabled_features := featuresNone, properties := propsBasic }

/-- Sample device whose compute workgroup dimension limits are large enough
that `(65536, 65536, 0)` passes every per-dimension check. -/
def devWideDims : Device :=
  { enabled_features := featuresAll,
    properties := { propsBasic with
      max_compute_work_group_size := ⟨65536, 65536, 65536⟩ } }

/-- `StateMode` (lines 1131–1141). -/
inductive StateMode (F : Type u) where
  | Fixed (value : F)
  | Dynamic
deriving DecidableEq, Repr

/-- `impl From<Option<T>> for StateMode<T>` (lines 1143–1150). -/
def stateModeFrom {T : Type u} : Option T → StateMode T
  | some x => .Fixed x
  | none => .Dynamic

/-- `impl From<StateMode<T>> for Option<T>` (lines 1152–1159). -/
def optionFrom {T : Type u} : StateMode T → Option T
  | .Fixed x => some x
  | .Dynamic => none

end Vulkano

namespace Examples

/-! Embedding of the two example files.  GPU futures are represented
syntactically: a future records which future it was chained after, which is
exactly the ordering information the synchronization claims are about.
Opaque driver handles (image views, secondary command buffers) are
naturals; `f32` color payloads carry no ordering information and are an
opaque field-free structure. -/

/-- An `[f32; 4]` color payload, abstracted (floating point is not
modelled; the value never influences control flow or chaining). -/
structure Color where
deriving DecidableEq, Repr

/-- An `Arc<ImageView>`: an opaque handle plus the first two components of
`image().extent()`. -/
structure ImageView where
  id : Nat
  extentX : Nat
  extentY : Nat
deriving DecidableEq, Repr

/-- A command recorded into the primary command buffer of
`RenderPassPlaceOverFrame::render`. -/
inductive GpuCommand where
  | beginRenderPass
  | executeCommands (secondary : Nat)
  | endRenderPass
deriving DecidableEq, Repr

/-- A built primary command buffer. -/
structure CommandBuffer where
  commands : List GpuCommand
deriving DecidableEq, Repr

/-- Modelled from the spec: a `GpuFuture` chain ("future/fence chaining
across queue submissions").  `then_execute` produces a future that runs its
command buffer strictly after the future it was called on. -/
inductive GpuFuture where
  | swapchainAcquireFuture (imageIndex : Nat)
  | commandBufferExecFuture (before : GpuFuture) (cb : CommandBuffer)
deriving DecidableEq, Repr

/-- The future a chained future executes after, if any. -/
def GpuFuture.before? : GpuFuture → Option GpuFuture
  | .swapchainAcquireFuture _ => none
  | .commandBufferExecFuture before _ => some before

/-- `PixelsDrawPipeline` (pixels_draw_pipeline.rs, outside `src/`):
`draw(img_dims, view)` returns a secondary command buffer, abstracted as a
handle computed from its arguments. -/
structure PixelsDrawPipeline where
  draw : Nat × Nat → ImageView → Nat

/-- `RenderPassPlaceOverFrame` (place_over_frame.rs): the fields `render`
reads. -/
structure RenderPassPlaceOverFrame where
  pixels_draw_pipeline : PixelsDrawPipeline

/-- `RenderPassPlaceOverFrame::render` (place_over_frame.rs lines 77–141):
builds a primary command buffer (begin render pass, execute the secondary
draw buffer, end render pass) and returns
`before_future.then_execute(queue, command_buffer)`. -/
def RenderPassPlaceOverFrame.render (self : RenderPassPlaceOverFrame)
    (before_future : GpuFuture) (view target : ImageView) : GpuFuture :=
  let img_dims : Nat × Nat := (target.extentX, target.extentY)
  let cb : CommandBuffer :=
    { commands := [.beginRenderPass,
                   .executeCommands (self.pixels_draw_pipeline.draw img_dims view),
                   .endRenderPass] }
  .commandBufferExecFuture before_future cb

/-- Modelled from the spec: `GameOfLifeComputePipeline` (game_of_life.rs,
outside `src/`): `compute(before, life, dead)` submits the life-simulation
command buffer chained after `before` ("future/fence chaining across queue
submissions") and exposes the color image it renders into. -/
structure GameOfLifeComputePipeline where
  compute_cb : CommandBuffer
  color_image : ImageView

/-- Modelled from the spec: the game-of-life compute dispatch, chained
after `before_future`. -/
def GameOfLifeComputePipeline.compute (self : GameOfLifeComputePipeline)
    (before_future : GpuFuture) (_life_color _dead_color : Color) : GpuFuture :=
  .commandBufferExecFuture before_future self.compute_cb

/-- `RenderPipeline` (app.rs, fields used by `compute_then_render`). -/
structure RenderPipeline where
  compute : GameOfLifeComputePipeline
  place_over_frame : RenderPassPlaceOverFrame

/-- Modelled from the spec: the parts of
`vulkano_util::renderer::VulkanoWindowRenderer` (outside `src/`) read by
`compute_then_render`: the window size, the outcome of
`acquire()` (the index of the acquired swapchain image, or an error
message), and the current swapchain image view. -/
structure VulkanoWindowRenderer where
  window_size : Nat × Nat
  acquireResult : Except String Nat
  swapchain_image_view : ImageView

/-- `compute_then_render` (main.rs lines 184–223).  Returns the future
handed to `window_renderer.present`, or `none` when the window is
minimized or `acquire` failed (the early `return`s). -/
def compute_then_render (window_renderer : VulkanoWindowRenderer)
    (pipeline : RenderPipeline) (life_color dead_color : Color) :
    Option GpuFuture :=
  match window_renderer.window_size with
  | (w, h) =>
    if w = 0 ∨ h = 0 then none
    else
      match window_renderer.acquireResult with
      | .error _ => none
      | .ok imageIndex =>
        let before_pipeline_future := GpuFuture.swapchainAcquireFuture imageIndex
        let after_compute :=
          pipeline.compute.compute before_pipeline_future life_color dead_color
        let color_image := pipeline.compute.color_image
        let target_image := window_renderer.swapchain_image_view
        let after_render :=
          pipeline.place_over_frame.render after_compute color_image target_image
        some after_render

/-- `winit` window identifier. -/
abbrev WindowId := Nat

/-- `winit::event::ElementState`. -/
inductive ElementState where
  | pressed
  | released
deriving DecidableEq, Repr

/-- `winit::event::MouseButton` (other buttons collapsed). -/
inductive MouseButton where
  | left
  | right
  | middle
  | other
deriving DecidableEq, Repr

/-- The `winit::event::WindowEvent` cases `process_event` distinguishes.
The cursor position payload is abstract (`π`, `f64` coordinates in the
source). -/
inductive WindowEventKind (π : Type u) where
  | closeRequested
  | resized
  | scaleFactorChanged
  | cursorMoved (position : π)
  | mouseInput (state : ElementState) (button : MouseButton)
  | otherWindowEvent
deriving DecidableEq, Repr

/-- The `winit::event::Event` cases `process_event` distinguishes. -/
inductive Event (π : Type u) where
  | windowEvent (window_id : WindowId) (event : WindowEventKind π)
  | otherEvent
deriving DecidableEq, Repr

/-- Modelled from the spec: a window renderer held by
`vulkano_util::window::VulkanoWindows` (outside `src/`); only its identity
and its `resize()` call are observable to `process_event`. -/
structure WindowRendererState where
  handle : Nat
  resizeCount : Nat
deriving DecidableEq, Repr

/-- `VulkanoWindowRenderer::resize`. -/
def WindowRendererState.resize (r : WindowRendererState) : WindowRendererState :=
  { r with resizeCount := r.resizeCount + 1 }

/-- Modelled from the spec: `vulkano_util::window::VulkanoWindows`
(outside `src/`): the primary window id (`primary_window_id()` returns an
`Option`) and the renderer of each open window. -/
structure VulkanoWindows where
  primary_window_id : Option WindowId
  renderers : List (WindowId × WindowRendererState)
deriving DecidableEq, Repr

/-- `VulkanoWindows::get_renderer_mut` (lookup). -/
def VulkanoWindows.get_renderer (ws : VulkanoWindows) (id : WindowId) :
    Option WindowRendererState :=
  (ws.renderers.find? (fun p => p.1 = id)).map Prod.snd

/-- `VulkanoWindows::remove_renderer`. -/
def VulkanoWindows.remove_renderer (ws : VulkanoWindows) (id : WindowId) :
    VulkanoWindows :=
  { ws with renderers := ws.renderers.filter (fun p => p.1 ≠ id) }

/-- Update of the renderer the source mutates through
`get_renderer_mut(..).unwrap().resize()`. -/
def VulkanoWindows.set_renderer (ws : VulkanoWindows) (id : WindowId)
    (r : WindowRendererState) : VulkanoWindows :=
  { ws with renderers := ws.renderers.map (fun p => if p.1 = id then (p.1, r) else p) }

/-- `App` (app.rs, fields used by `process_event`); pipelines are an
association list keyed by window id (`HashMap`), carrying opaque pipeline
handles. -/
structure App where
  windows : VulkanoWindows
  pipelines : List (WindowId × Nat)
deriving DecidableEq, Repr

/-- `HashMap::remove` on the pipelines map. -/
def App.remove_pipeline (app : App) (id : WindowId) : App :=
  { app with pipelines := app.pipelines.filter (fun p => p.1 ≠ id) }

/-- `process_event` (main.rs lines 87–136).  The mutable borrows become
explicit state: the result carries the returned `bool` together with the
updated `app`, `cursor_pos`, `mouse_pressed_w1`, `mouse_pressed_w2`.
`none` is a panic (a failed `unwrap()`). -/
def process_event {π : Type} (event : Event π) (app : App) (cursor_pos : π)
    (mouse_pressed_w1 mouse_pressed_w2 : Bool) :
    Option (Bool × App × π × Bool × Bool) :=
  match event with
  | .windowEvent window_id ev =>
    match ev with
    | .closeRequested =>
      match app.windows.primary_window_id with
      | none => none
      | some primary =>
        if window_id = primary then
          some (true, app, cursor_pos, mouse_pressed_w1, mouse_pressed_w2)
        else
          some (false,
            App.remove_pipeline
              { app with windows := app.windows.remove_renderer window_id }
              window_id,
            cursor_pos, mouse_pressed_w1, mouse_pressed_w2)
    | .resized | .scaleFactorChanged =>
      match app.windows.get_renderer window_id with
      | none => none
      | some r =>
        some (false,
          { app with windows := app.windows.set_renderer window_id r.resize },
          cursor_pos, mouse_pressed_w1, mouse_pressed_w2)
    | .cursorMoved position =>
      some (false, app, position, mouse_pressed_w1, mouse_pressed_w2)
    | .mouseInput state button =>
      let mouse_pressed := button = MouseButton.left ∧ state = ElementState.pressed
      match app.windows.primary_window_id with
      | none => none
      | some primary =>
        if window_id = primary then
          some (false, app, cursor_pos, mouse_pressed, mouse_pressed_w2)
        else
          some (false, app, cursor_pos, mouse_pressed_w1, mouse_pressed)
    | .otherWindowEvent =>
      some (false, app, cursor_pos, mouse_pressed_w1, mouse_pressed_w2)
  | .otherEvent =>
    some (false, app, cursor_pos, mouse_pressed_w1, mouse_pressed_w2)

end Examples

open Vulkano Examples

/-! Helper lemmas about the checked-product fold and the error
constructors. -/

/-- Closed form of the checked-product fold on a `[u32; 3]`. -/
theorem tryFoldCheckedMul_three (x y z : Nat) :
    tryFoldCheckedMul 1 [x, y, z] =
      if x ≤ U32_MAX ∧ x * y ≤ U32_MAX ∧ x * y * z ≤ U32_MAX
      then some (x * y * z) else none := by
  by_cases h1 : x ≤ U32_MAX
  · by_cases h2 : x * y ≤ U32_MAX
    · by_cases h3 : x * y * z ≤ U32_MAX
      · simp [tryFoldCheckedMul, checkedMul, h1, h2, h3]
      · simp [tryFoldCheckedMul, checkedMul, h1, h2, h3]
    · simp [tryFoldCheckedMul, checkedMul, h1, h2]
  · simp [tryFoldCheckedMul, checkedMul, h1]

/-- A mathematically overflowing `[u32; 3]` product makes the checked fold
fail. -/
theorem tryFoldCheckedMul_overflow (x y z : Nat) (h : U32_MAX < x * y * z) :
    tryFoldCheckedMul 1 [x, y, z] = none := by
  rw [tryFoldCheckedMul_three, if_neg]
  rintro ⟨-, -, h3⟩
  exact absurd h3 (Nat.not_le.mpr h)

/-- A successful checked fold computes the mathematical product, bounded by
`u32`. -/
theorem tryFoldCheckedMul_some (x y z w : Nat)
    (h : tryFoldCheckedMul 1 [x, y, z] = some w) :
    w = x * y * z ∧ w ≤ U32_MAX := by
  rw [tryFoldCheckedMul_three] at h
  split_ifs at h with hc
  obtain ⟨-, -, h3⟩ := hc
  obtain rfl := Option.some.inj h
  exact ⟨rfl, h3⟩

/-- Every error produced by the per-stage feature gate cites a VUID. -/
theorem stageFeatureCheck_vuids (s : ShaderStage) (d : Device)
    (e : ValidationError) (h : stageFeatureCheck s d = some e) :
    e.vuids ≠ [] := by
  cases s <;> simp only [stageFeatureCheck] at h
  all_goals first
    | exact Option.noConfusion h
    | (split_ifs at h with hc
       obtain rfl := Option.some.inj h
       simp)

/-- Membership in the workgroup VUID list implies a non-empty citation. -/
theorem computeWorkgroupVuids_ne_nil (l : List String)
    (h : l ∈ computeWorkgroupVuids) : l ≠ [] := by
  simp only [computeWorkgroupVuids, List.mem_cons, List.not_mem_nil, or_false] at h
  rcases h with rfl | rfl | rfl | rfl <;> simp

/-- Every error produced by the compute workgroup-size block cites one of
the four workgroup VUIDs. -/
theorem computeWorkgroupCheck_error_vuids (ls : U32x3) (p : Properties)
    (e : ValidationError) (h : computeWorkgroupCheck ls p = .error e) :
    e.vuids ∈ computeWorkgroupVuids := by
  unfold computeWorkgroupCheck at h
  split_ifs at h with h1 h2 h3
  · injection h with h'
    subst h'
    simp [computeWorkgroupVuids]
  · injection h with h'
    subst h'
    simp [computeWorkgroupVuids]
  · injection h with h'
    subst h'
    simp [computeWorkgroupVuids]
  · split at h
    · injection h with h'
      subst h'
      simp [computeWorkgroupVuids]
    · exact Except.noConfusion h

/-- Every error produced by the task workgroup-size block cites a VUID. -/
theorem taskWorkgroupCheck_error_vuids (ls : U32x3) (p : Properties)
    (e : ValidationError) (h : taskWorkgroupCheck ls p = .error e) :
    e.vuids ≠ [] := by
  unfold taskWorkgroupCheck at h
  split_ifs at h with h1 h2 h3
  · injection h with h'; subst h'; simp
  · injection h with h'; subst h'; simp
  · injection h with h'; subst h'; simp
  · split at h
    · injection h with h'; subst h'; simp
    · exact Except.noConfusion h

/-- Every error produced by the mesh workgroup-size block cites a VUID. -/
theorem meshWorkgroupCheck_error_vuids (ls : U32x3) (p : Properties)
    (e : ValidationError) (h : meshWorkgroupCheck ls p = .error e) :
    e.vuids ≠ [] := by
  unfold meshWorkgroupCheck at h
  split_ifs at h with h1 h2 h3
  · injection h with h'; subst h'; simp
  · injection h with h'; subst h'; simp
  · injection h with h'; subst h'; simp
  · split at h
    · injection h with h'; subst h'; simp
    · exact Except.noConfusion h

/-- Every error produced by the `required_subgroup_size` block cites one of
the five subgroup-size VUIDs. -/
theorem requiredSubgroupSizeChecks_cases (s : Nat) (st : ShaderStage)
    (d : Device) (wg : Option Nat) (e : ValidationError)
    (h : requiredSubgroupSizeChecks s st d wg = some e) :
    e.vuids = ["VUID-VkPipelineShaderStageCreateInfo-pNext-02755"] ∨
    e.vuids = ["VUID-VkPipelineShaderStageRequiredSubgroupSizeCreateInfo-requiredSubgroupSize-02760"] ∨
    e.vuids = ["VUID-VkPipelineShaderStageRequiredSubgroupSizeCreateInfo-requiredSubgroupSize-02761"] ∨
    e.vuids = ["VUID-VkPipelineShaderStageRequiredSubgroupSizeCreateInfo-requiredSubgroupSize-02762"] ∨
    e.vuids = ["VUID-VkPipelineShaderStageCreateInfo-pNext-02756"] := by
  unfold requiredSubgroupSizeChecks at h
  split_ifs at h
  all_goals first
    | (obtain rfl := Option.some.inj h; simp)
    | (split at h
       · first
           | exact Option.noConfusion h
           | (split_ifs at h
              obtain rfl := Option.some.inj h
              simp)
       · exact Option.noConfusion h)

/-- Every error produced by the `required_subgroup_size` block cites a
VUID. -/
theorem requiredSubgroupSizeChecks_vuids (s : Nat) (st : ShaderStage)
    (d : Device) (wg : Option Nat) (e : ValidationError)
    (h : requiredSubgroupSizeChecks s st d wg = some e) :
    e.vuids ≠ [] := by
  rcases requiredSubgroupSizeChecks_cases s st d wg e h with
    h' | h' | h' | h' | h' <;> simp [h']

/-- No error produced by the `required_subgroup_size` block cites a compute
workgroup-size VUID. -/
theorem requiredSubgroupSizeChecks_not_wg (s : Nat) (st : ShaderStage)
    (d : Device) (wg : Option Nat) (e : ValidationError)
    (h : requiredSubgroupSizeChecks s st d wg = some e) :
    e.vuids ∉ computeWorkgroupVuids := by
  rcases requiredSubgroupSizeChecks_cases s st d wg e h with
    h' | h' | h' | h' | h' <;> simp [h', computeWorkgroupVuids]

/-- C8: `Option<T> → StateMode<T> → Option<T>` and
`StateMode<T> → Option<T> → StateMode<T>` are mutually inverse, with
`Some(x) ↦ Fixed(x)` and `None ↦ Dynamic`. -/
theorem c8_statemode_option_roundtrip :
    (∀ (T : Type) (o : Option T), optionFrom (stateModeFrom o) = o) ∧
    (∀ (T : Type) (m : StateMode T), stateModeFrom (optionFrom m) = m) ∧
    (∀ (T : Type) (x : T), stateModeFrom (some x) = StateMode.Fixed x) ∧
    (∀ (T : Type), stateModeFrom (none : Option T) = StateMode.Dynamic) := by
  refine ⟨fun T o => ?_, fun T m => ?_, fun T x => rfl, fun T => rfl⟩
  · cases o <;> rfl
  · cases m <;> rfl

/-- C2: whenever `validate` returns an error, the error carries a non-empty
list of VUID citations. -/
theorem c2_errors_cite_vuids (self : PipelineShaderStageCreateInfo)
    (device : Device) (flagsCheck stageCheck : Option ValidationError)
    (e : ValidationError)
    (h : self.validate device flagsCheck stageCheck = .err e) :
    e.vuids ≠ [] := by
  unfold PipelineShaderStageCreateInfo.validate at h
  split at h
  · injection h with h'; subst h'; simp [setVuids]
  · split at h
    · injection h with h'; subst h'; simp [setVuids]
    · split at h
      · injection h with h'
        subst h'
        exact stageFeatureCheck_vuids _ _ _ (by assumption)
      · split at h
        · split at h
          · injection h with h'
            subst h'
            exact computeWorkgroupVuids_ne_nil _
              (computeWorkgroupCheck_error_vuids _ _ _ (by assumption))
          · unfold finishValidate at h
            split at h
            · split at h
              · injection h with h'
                subst h'
                exact requiredSubgroupSizeChecks_vuids _ _ _ _ _ (by assumption)
              · exact VResult.noConfusion h
            · exact VResult.noConfusion h
        · split at h
          · injection h with h'
            subst h'
            exact taskWorkgroupCheck_error_vuids _ _ _ (by assumption)
          · unfold finishValidate at h
            split at h
            · split at h
              · injection h with h'
                subst h'
                exact requiredSubgroupSizeChecks_vuids _ _ _ _ _ (by assumption)
              · exact VResult.noConfusion h
            · exact VResult.noConfusion h
        · split at h
          · injection h with h'
            subst h'
            exact meshWorkgroupCheck_error_vuids _ _ _ (by assumption)
          · unfold finishValidate at h
            split at h
            · split at h
              · injection h with h'
                subst h'
                exact requiredSubgroupSizeChecks_vuids _ _ _ _ _ (by assumption)
              · exact VResult.noConfusion h
            · exact VResult.noConfusion h
        · exact VResult.noConfusion h
        · unfold finishValidate at h
          split at h
          · split at h
            · injection h with h'
              subst h'
              exact requiredSubgroupSizeChecks_vuids _ _ _ _ _ (by assumption)
            · exact VResult.noConfusion h
          · exact VResult.noConfusion h

/-- Witness for C2: a concrete failing validation (a `Task` entry point on
a device without the `task_shader` feature) whose error cites a VUID. -/
theorem c2_errors_cite_vuids_witness :
    ∃ e, (PipelineShaderStageCreateInfo.mk ⟨.task, none⟩ none).validate
        devNoFeatures none none = .err e ∧ e.vuids ≠ [] := by
  refine ⟨_, rfl, ?_⟩
  exact c2_errors_cite_vuids (PipelineShaderStageCreateInfo.mk ⟨.task, none⟩ none)
    devNoFeatures none none _ rfl

/-- A gated stage with its feature disabled makes the per-stage feature
gate fire. -/
theorem stageFeatureCheck_gated (st : ShaderStage) (device : Device)
    (hgate :
      ((st = ShaderStage.tessellationControl ∨
        st = ShaderStage.tessellationEvaluation) ∧
        device.enabled_features.tessellation_shader = false) ∨
      (st = ShaderStage.geometry ∧
        device.enabled_features.geometry_shader = false) ∨
      (st = ShaderStage.task ∧
        device.enabled_features.task_shader = false) ∨
      (st = ShaderStage.mesh ∧
        device.enabled_features.mesh_shader = false)) :
    ∃ e, stageFeatureCheck st device = some e := by
  rcases hgate with ⟨hst | hst, hf⟩ | ⟨hst, hf⟩ | ⟨hst, hf⟩ | ⟨hst, hf⟩ <;>
    subst hst <;> simp [stageFeatureCheck, hf]

/-- C3: `validate` rejects `TessellationControl`/`TessellationEvaluation`,
`Geometry`, `Task` and `Mesh` entry points whenever the corresponding
device feature is disabled; for `Compute`, `Vertex` and `Fragment` entry
points its outcome does not depend on those four stage features. -/
theorem c3_stage_feature_gating :
    (∀ (self : PipelineShaderStageCreateInfo) (device : Device)
        (fc sc : Option ValidationError),
      (((self.entry_point.stage = ShaderStage.tessellationControl ∨
         self.entry_point.stage = ShaderStage.tessellationEvaluation) ∧
         device.enabled_features.tessellation_shader = false) ∨
       (self.entry_point.stage = ShaderStage.geometry ∧
         device.enabled_features.geometry_shader = false) ∨
       (self.entry_point.stage = ShaderStage.task ∧
         device.enabled_features.task_shader = false) ∨
       (self.entry_point.stage = ShaderStage.mesh ∧
         device.enabled_features.mesh_shader = false)) →
      (self.validate device fc sc).isErr = true) ∧
    (∀ (self : PipelineShaderStageCreateInfo) (device : Device)
        (fc sc : Option ValidationError) (t g ta me : Bool),
      (self.entry_point.stage = ShaderStage.compute ∨
       self.entry_point.stage = ShaderStage.vertex ∨
       self.entry_point.stage = ShaderStage.fragment) →
      self.validate (device.setStageFeatures t g ta me) fc sc =
        self.validate device fc sc) := by
  constructor
  · intro self device fc sc hgate
    cases fc with
    | some e => rfl
    | none =>
      cases sc with
      | some e => rfl
      | none =>
        obtain ⟨e, he⟩ := stageFeatureCheck_gated self.entry_point.stage device hgate
        unfold PipelineShaderStageCreateInfo.validate
        rw [he]
        rfl
  · intro self device fc sc t g ta me hstage
    rcases self with ⟨⟨st, cls⟩, rss⟩
    rcases hstage with h | h | h <;> subst h <;>
      cases fc <;> cases sc <;> cases cls <;> rfl

/-- Witness for C3: a `Geometry` entry point on a featureless device is
rejected, and stage features do not change the verdict for a compute entry
point. -/
theorem c3_stage_feature_gating_witness :
    ((PipelineShaderStageCreateInfo.mk ⟨.geometry, none⟩ none).validate
        devNoFeatures none none).isErr = true ∧
    (PipelineShaderStageCreateInfo.mk ⟨.compute, none⟩ none).validate
        (devBasic.setStageFeatures false false false false) none none =
      (PipelineShaderStageCreateInfo.mk ⟨.compute, none⟩ none).validate
        devBasic none none :=
  ⟨c3_stage_feature_gating.1
      (PipelineShaderStageCreateInfo.mk ⟨.geometry, none⟩ none)
      devNoFeatures none none (Or.inr (Or.inl ⟨rfl, rfl⟩)),
   c3_stage_feature_gating.2
      (PipelineShaderStageCreateInfo.mk ⟨.compute, none⟩ none)
      devBasic none none false false false false (Or.inl rfl)⟩

/-- A `required_subgroup_size` block that falls through certifies all five
subgroup-size conditions. -/
theorem requiredSubgroupSizeChecks_none (s : Nat) (st : ShaderStage)
    (d : Device) (wg : Option Nat)
    (h : requiredSubgroupSizeChecks s st d wg = none) :
    d.enabled_features.subgroup_size_control = true ∧
    (d.properties.required_subgroup_size_stages.getD []).contains_enum st
      = true ∧
    isPowerOfTwo s = true ∧
    d.properties.min_subgroup_size.getD 1 ≤ s ∧
    s ≤ d.properties.max_subgroup_size.getD 128 := by
  unfold requiredSubgroupSizeChecks at h
  split_ifs at h
  all_goals refine ⟨?_, ?_, ?_, ?_, ?_⟩ <;> simp_all [not_lt]

/-- If any of the five subgroup-size conditions fails, the
`required_subgroup_size` block errors. -/
theorem requiredSubgroupSizeChecks_fails (s : Nat) (st : ShaderStage)
    (d : Device) (wg : Option Nat)
    (hfail : ¬(d.enabled_features.subgroup_size_control = true ∧
      (d.properties.required_subgroup_size_stages.getD []).contains_enum st
        = true ∧
      isPowerOfTwo s = true ∧
      d.properties.min_subgroup_size.getD 1 ≤ s ∧
      s ≤ d.properties.max_subgroup_size.getD 128)) :
    ∃ e, requiredSubgroupSizeChecks s st d wg = some e := by
  cases hX : requiredSubgroupSizeChecks s st d wg with
  | some e => exact ⟨e, rfl⟩
  | none => exact absurd (requiredSubgroupSizeChecks_none s st d wg hX) hfail

/-- C4: with `required_subgroup_size = Some s`, `validate` errors unless
the `subgroup_size_control` feature is enabled, the entry point's stage
lies in `required_subgroup_size_stages`, `s` is a power of two, and `s`
lies between `min_subgroup_size` (default 1) and `max_subgroup_size`
(default 128).  The hypothesis `hreal` restricts to inputs representable
by a real shader module (a compute-style `local_size` only occurs for
compute, task and mesh stages). -/
theorem c4_required_subgroup_size (self : PipelineShaderStageCreateInfo)
    (device : Device) (fc sc : Option ValidationError) (s : Nat)
    (hreal : self.entry_point.computeLocalSize = none ∨
      self.entry_point.stage = ShaderStage.compute ∨
      self.entry_point.stage = ShaderStage.task ∨
      self.entry_point.stage = ShaderStage.mesh)
    (hs : self.required_subgroup_size = some s)
    (hfail : ¬(device.enabled_features.subgroup_size_control = true ∧
      (device.properties.required_subgroup_size_stages.getD
        []).contains_enum self.entry_point.stage = true ∧
      isPowerOfTwo s = true ∧
      device.properties.min_subgroup_size.getD 1 ≤ s ∧
      s ≤ device.properties.max_subgroup_size.getD 128)) :
    (self.validate device fc sc).isErr = true := by
  rcases self with ⟨⟨st, cls⟩, rss⟩
  simp only at hs hreal hfail
  subst hs
  cases fc with
  | some e => rfl
  | none =>
  cases sc with
  | some e => rfl
  | none =>
  unfold PipelineShaderStageCreateInfo.validate
  cases hsf : stageFeatureCheck st device with
  | some e => simp [hsf, VResult.isErr]
  | none =>
  simp only [hsf]
  rcases hreal with hcls | hst | hst | hst
  · subst hcls
    simp only [finishValidate]
    obtain ⟨e, he⟩ := requiredSubgroupSizeChecks_fails s st device none hfail
    cases st <;> simp [he, VResult.isErr]
  · subst hst
    cases cls with
    | none =>
      simp only [finishValidate]
      obtain ⟨e, he⟩ := requiredSubgroupSizeChecks_fails s _ device none hfail
      simp [he, VResult.isErr]
    | some ls =>
      cases hwc : computeWorkgroupCheck ls device.properties with
      | error e => simp [hwc, VResult.isErr]
      | ok w =>
        simp only [hwc, finishValidate]
        obtain ⟨e, he⟩ :=
          requiredSubgroupSizeChecks_fails s _ device (some w) hfail
        simp [he, VResult.isErr]
  · subst hst
    cases cls with
    | none =>
      simp only [finishValidate]
      obtain ⟨e, he⟩ := requiredSubgroupSizeChecks_fails s _ device none hfail
      simp [he, VResult.isErr]
    | some ls =>
      cases hwc : taskWorkgroupCheck ls device.properties with
      | error e => simp [hwc, VResult.isErr]
      | ok w =>
        simp only [hwc, finishValidate]
        obtain ⟨e, he⟩ :=
          requiredSubgroupSizeChecks_fails s _ device (some w) hfail
        simp [he, VResult.isErr]
  · subst hst
    cases cls with
    | none =>
      simp only [finishValidate]
      obtain ⟨e, he⟩ := requiredSubgroupSizeChecks_fails s _ device none hfail
      simp [he, VResult.isErr]
    | some ls =>
      cases hwc : meshWorkgroupCheck ls device.properties with
      | error e => simp [hwc, VResult.isErr]
      | ok w =>
        simp only [hwc, finishValidate]
        obtain ⟨e, he⟩ :=
          requiredSubgroupSizeChecks_fails s _ device (some w) hfail
        simp [he, VResult.isErr]

/-- Witness for C4: a compute entry point asking for a non-power-of-two
subgroup size of 3 is rejected. -/
theorem c4_required_subgroup_size_witness :
    ((PipelineShaderStageCreateInfo.mk ⟨.compute, some ⟨4, 4, 4⟩⟩
        (some 3)).validate devBasic none none).isErr = true :=
  c4_required_subgroup_size
    (PipelineShaderStageCreateInfo.mk ⟨.compute, some ⟨4, 4, 4⟩⟩ (some 3))
    devBasic none none 3 (Or.inr (Or.inl rfl)) rfl
    (by intro hc; exact absurd hc.2.2.1 (by decide))

/-- If a dimension bound fails, or the mathematical product exceeds the
invocation limit, or the checked fold overflows, the compute workgroup
block errors. -/
theorem computeWorkgroupCheck_error_of (ls : U32x3) (p : Properties)
    (hcond : ls.x > p.max_compute_work_group_size.x ∨
      ls.y > p.max_compute_work_group_size.y ∨
      ls.z > p.max_compute_work_group_size.z ∨
      ls.x * ls.y * ls.z > p.max_compute_work_group_invocations ∨
      tryFoldCheckedMul 1 ls.toList = none) :
    ∃ e, computeWorkgroupCheck ls p = .error e := by
  unfold computeWorkgroupCheck
  by_cases h1 : ls.x > p.max_compute_work_group_size.x
  · simp [h1]
  · by_cases h2 : ls.y > p.max_compute_work_group_size.y
    · simp [h1, h2]
    · by_cases h3 : ls.z > p.max_compute_work_group_size.z
      · simp [h1, h2, h3]
      · have hprod : Option.filter
            (fun x => decide (x ≤ p.max_compute_work_group_invocations))
            (tryFoldCheckedMul 1 ls.toList) = none := by
          rcases hcond with h | h | h | h | h
          · exact absurd h h1
          · exact absurd h h2
          · exact absurd h h3
          · cases hf : tryFoldCheckedMul 1 ls.toList with
            | none => rfl
            | some w =>
              obtain ⟨hw, -⟩ := tryFoldCheckedMul_some ls.x ls.y ls.z w
                (by simpa [U32x3.toList] using hf)
              subst hw
              simp [Option.filter, Nat.not_le.mpr h]
          · simp [h]
        simp [h1, h2, h3, hprod]

/-- When every bound holds and the checked fold succeeds, the compute
workgroup block passes, returning the product. -/
theorem computeWorkgroupCheck_ok_of (ls : U32x3) (p : Properties)
    (h1 : ls.x ≤ p.max_compute_work_group_size.x)
    (h2 : ls.y ≤ p.max_compute_work_group_size.y)
    (h3 : ls.z ≤ p.max_compute_work_group_size.z)
    (h4 : ls.x * ls.y * ls.z ≤ p.max_compute_work_group_invocations)
    (h5 : tryFoldCheckedMul 1 ls.toList ≠ none) :
    computeWorkgroupCheck ls p = .ok (ls.x * ls.y * ls.z) := by
  unfold computeWorkgroupCheck
  cases hf : tryFoldCheckedMul 1 ls.toList with
  | none => exact absurd hf h5
  | some w =>
    obtain ⟨hw, -⟩ := tryFoldCheckedMul_some ls.x ls.y ls.z w
      (by simpa [U32x3.toList] using hf)
    subst hw
    simp [not_lt.mpr h1, not_lt.mpr h2, not_lt.mpr h3, hf, Option.filter, h4]

/-- Counterexample to C1 as stated: with `local_size = (65536, 65536, 0)`
and large per-dimension limits, every bound in the claim holds — each
dimension is within `max_compute_work_group_size`, and the product
`65536 * 65536 * 0 = 0` is within `max_compute_work_group_invocations` —
yet `validate` returns the over-the-invocation-limit error, because the
left-to-right checked product `65536 * 65536` already overflows `u32`. -/
theorem c1_workgroup_counterexample :
    (65536 ≤ devWideDims.properties.max_compute_work_group_size.x ∧
     65536 ≤ devWideDims.properties.max_compute_work_group_size.y ∧
     0 ≤ devWideDims.properties.max_compute_work_group_size.z ∧
     65536 * 65536 * 0 ≤
       devWideDims.properties.max_compute_work_group_invocations) ∧
    (PipelineShaderStageCreateInfo.mk ⟨.compute, some ⟨65536, 65536, 0⟩⟩
        none).validate devWideDims none none =
      .err { problem := "the product of the `local_size_x`, `local_size_y` and `local_size_z` of `entry_point` is greater than the `max_compute_work_group_invocations` device limit",
             vuids := ["VUID-RuntimeSpirv-x-06432"] } :=
  ⟨by decide, by rfl⟩

/-- C1 (amended): for a compute entry point, with the flags and stage
parameter checks passing, the workgroup-size checks fail — `validate`
returns an error citing one of the four workgroup VUIDs — when a dimension
of `local_size` exceeds the corresponding `max_compute_work_group_size`
component, or the product exceeds `max_compute_work_group_invocations`,
or the left-to-right `u32`-checked product overflows; when none of these
hold, the workgroup-size checks pass (any error `validate` still returns
cites a different rule). -/
theorem c1_amended_compute_workgroup (self : PipelineShaderStageCreateInfo)
    (device : Device) (ls : U32x3)
    (hstage : self.entry_point.stage = ShaderStage.compute)
    (hls : self.entry_point.computeLocalSize = some ls) :
    ((ls.x > device.properties.max_compute_work_group_size.x ∨
      ls.y > device.properties.max_compute_work_group_size.y ∨
      ls.z > device.properties.max_compute_work_group_size.z ∨
      ls.x * ls.y * ls.z >
        device.properties.max_compute_work_group_invocations ∨
      tryFoldCheckedMul 1 ls.toList = none) →
      ∃ e, self.validate device none none = .err e ∧
        e.vuids ∈ computeWorkgroupVuids) ∧
    ((ls.x ≤ device.properties.max_compute_work_group_size.x ∧
      ls.y ≤ device.properties.max_compute_work_group_size.y ∧
      ls.z ≤ device.properties.max_compute_work_group_size.z ∧
      ls.x * ls.y * ls.z ≤
        device.properties.max_compute_work_group_invocations ∧
      tryFoldCheckedMul 1 ls.toList ≠ none) →
      ∀ e, self.validate device none none = .err e →
        e.vuids ∉ computeWorkgroupVuids) := by
  rcases self with ⟨⟨st, cls⟩, rss⟩
  simp only at hstage hls
  subst hstage
  subst hls
  constructor
  · intro hcond
    obtain ⟨e, he⟩ := computeWorkgroupCheck_error_of ls device.properties hcond
    refine ⟨e, ?_, computeWorkgroupCheck_error_vuids _ _ _ he⟩
    unfold PipelineShaderStageCreateInfo.validate
    simp [stageFeatureCheck, he]
  · rintro ⟨h1, h2, h3, h4, h5⟩ e hval
    have hok := computeWorkgroupCheck_ok_of ls device.properties h1 h2 h3 h4 h5
    unfold PipelineShaderStageCreateInfo.validate at hval
    simp only [stageFeatureCheck] at hval
    rw [hok] at hval
    cases rss with
    | none => simp [finishValidate] at hval
    | some s =>
      simp only [finishValidate] at hval
      cases hrs : requiredSubgroupSizeChecks s ShaderStage.compute device
          (some (ls.x * ls.y * ls.z)) with
      | none => rw [hrs] at hval; exact VResult.noConfusion hval
      | some e2 =>
        rw [hrs] at hval
        injection hval with h'
        subst h'
        exact requiredSubgroupSizeChecks_not_wg _ _ _ _ _ hrs

/-- Witness for C1 (amended): `local_size_x = 2048` exceeds the limit 1024
and `validate` errors with a workgroup VUID. -/
theorem c1_amended_compute_workgroup_witness :
    ∃ e, (PipelineShaderStageCreateInfo.mk ⟨.compute, some ⟨2048, 1, 1⟩⟩
        none).validate devBasic none none = .err e ∧
      e.vuids ∈ computeWorkgroupVuids :=
  (c1_amended_compute_workgroup
      (PipelineShaderStageCreateInfo.mk ⟨.compute, some ⟨2048, 1, 1⟩⟩ none)
      devBasic ⟨2048, 1, 1⟩ rfl rfl).1 (Or.inl (by decide))

/-- Counterexample to C9 as stated: a compute entry point whose workgroup
product overflows `u32` but whose `local_size_x` already exceeds the
per-dimension limit.  `validate` returns the per-dimension error
(VUID-RuntimeSpirv-x-06429), not the over-the-invocation-limit error the
claim names. -/
theorem c9_overflow_counterexample :
    U32_MAX < 4294967295 * 2 * 1 ∧
    (PipelineShaderStageCreateInfo.mk ⟨.compute, some ⟨4294967295, 2, 1⟩⟩
        none).validate devBasic none none =
      .err { problem := "the `local_size_x` of `entry_point` is greater than `max_compute_work_group_size[0]`",
             vuids := ["VUID-RuntimeSpirv-x-06429"] } ∧
    ["VUID-RuntimeSpirv-x-06429"] ≠ ["VUID-RuntimeSpirv-x-06432"] :=
  ⟨by decide, by rfl, by decide⟩

/-- C9 (amended): the workgroup product is computed with checked 32-bit
multiplication, so a compute-, task- or mesh-stage entry point that passes
the flags, stage, stage-feature and per-dimension checks and whose
`local_size` product overflows `u32` makes `validate` return the
corresponding over-the-invocation-limit error (no wraparound, no
panic). -/
theorem c9_amended_checked_product (self : PipelineShaderStageCreateInfo)
    (device : Device) (ls : U32x3)
    (hls : self.entry_point.computeLocalSize = some ls)
    (hsf : stageFeatureCheck self.entry_point.stage device = none)
    (hoverflow : U32_MAX < ls.x * ls.y * ls.z) :
    (self.entry_point.stage = ShaderStage.compute →
      ls.x ≤ device.properties.max_compute_work_group_size.x →
      ls.y ≤ device.properties.max_compute_work_group_size.y →
      ls.z ≤ device.properties.max_compute_work_group_size.z →
      self.validate device none none =
        .err { problem := "the product of the `local_size_x`, `local_size_y` and `local_size_z` of `entry_point` is greater than the `max_compute_work_group_invocations` device limit",
               vuids := ["VUID-RuntimeSpirv-x-06432"] }) ∧
    (self.entry_point.stage = ShaderStage.task →
      ls.x ≤ (device.properties.max_task_work_group_size.getD ⟨0, 0, 0⟩).x →
      ls.y ≤ (device.properties.max_task_work_group_size.getD ⟨0, 0, 0⟩).y →
      ls.z ≤ (device.properties.max_task_work_group_size.getD ⟨0, 0, 0⟩).z →
      self.validate device none none =
        .err { problem := "the product of the `local_size_x`, `local_size_y` and `local_size_z` of `entry_point` is greater than the `max_task_work_group_invocations` device limit",
               vuids := ["VUID-RuntimeSpirv-TaskEXT-07294"] }) ∧
    (self.entry_point.stage = ShaderStage.mesh →
      ls.x ≤ (device.properties.max_mesh_work_group_size.getD ⟨0, 0, 0⟩).x →
      ls.y ≤ (device.properties.max_mesh_work_group_size.getD ⟨0, 0, 0⟩).y →
      ls.z ≤ (device.properties.max_mesh_work_group_size.getD ⟨0, 0, 0⟩).z →
      self.validate device none none =
        .err { problem := "the product of the `local_size_x`, `local_size_y` and `local_size_z` of `entry_point` is greater than the `max_mesh_work_group_invocations` device limit",
               vuids := ["VUID-RuntimeSpirv-MeshEXT-07298"] }) := by
  have hfold : tryFoldCheckedMul 1 ls.toList = none := by
    simpa [U32x3.toList] using
      tryFoldCheckedMul_overflow ls.x ls.y ls.z hoverflow
  rcases self with ⟨⟨st, cls⟩, rss⟩
  simp only at hls hsf
  subst hls
  refine ⟨?_, ?_, ?_⟩ <;> intro hst h1 h2 h3 <;> subst hst <;>
    unfold PipelineShaderStageCreateInfo.validate <;> rw [hsf] <;>
    simp [computeWorkgroupCheck, taskWorkgroupCheck, meshWorkgroupCheck,
      not_lt.mpr h1, not_lt.mpr h2, not_lt.mpr h3, hfold, Option.filter]

/-- Witness for C9 (amended): `(65536, 65536, 2)` passes the wide
per-dimension limits, overflows `u32`, and yields the
over-the-invocation-limit error. -/
theorem c9_amended_checked_product_witness :
    (PipelineShaderStageCreateInfo.mk ⟨.compute, some ⟨65536, 65536, 2⟩⟩
        none).validate devWideDims none none =
      .err { problem := "the product of the `local_size_x`, `local_size_y` and `local_size_z` of `entry_point` is greater than the `max_compute_work_group_invocations` device limit",
             vuids := ["VUID-RuntimeSpirv-x-06432"] } :=
  (c9_amended_checked_product
      (PipelineShaderStageCreateInfo.mk ⟨.compute, some ⟨65536, 65536, 2⟩⟩ none)
      devWideDims ⟨65536, 65536, 2⟩ rfl rfl (by decide)).1 rfl
    (by decide) (by decide) (by decide)

/-- A passing compute workgroup block returns exactly the `local_size`
product, bounded by `u32` and by the invocation limit. -/
theorem computeWorkgroupCheck_ok_inv (ls : U32x3) (p : Properties) (w : Nat)
    (h : computeWorkgroupCheck ls p = .ok w) :
    w = ls.x * ls.y * ls.z ∧ w ≤ U32_MAX ∧
      w ≤ p.max_compute_work_group_invocations := by
  unfold computeWorkgroupCheck at h
  split_ifs at h
  cases hf : tryFoldCheckedMul 1 ls.toList with
  | none => rw [hf] at h; exact Except.noConfusion h
  | some v =>
    rw [hf] at h
    simp only [Option.filter] at h
    split_ifs at h with hp
    injection h with h'
    subst h'
    obtain ⟨hv, hvM⟩ := tryFoldCheckedMul_some ls.x ls.y ls.z v
      (by simpa [U32x3.toList] using hf)
    exact ⟨hv, hvM, by simpa using hp⟩

/-- The saturated comparison in the subgroup budget check agrees with the
mathematical one for any `u32`-bounded workgroup size. -/
theorem subgroup_budget_iff (w s m : Nat) (hw : w ≤ U32_MAX) :
    ((checkedMul s m).getD U32_MAX < w ↔ s * m < w) := by
  unfold checkedMul
  split_ifs with hsm
  · simp
  · simp only [Option.getD]
    constructor
    · intro h
      exact absurd hw (Nat.not_le.mpr h)
    · intro h
      exact absurd hw (Nat.not_le.mpr (lt_trans (Nat.not_le.mp hsm) h))

/-- C5: for a compute entry point with `required_subgroup_size = Some s`
that passes the workgroup-size checks and all preceding subgroup-size
checks, `validate` returns the workgroup/subgroup budget error exactly
when the `local_size` product exceeds
`s * max_compute_workgroup_subgroups` (defaulting to 0), and otherwise
returns `Ok`. -/
theorem c5_subgroup_budget (self : PipelineShaderStageCreateInfo)
    (device : Device) (ls : U32x3) (s w : Nat)
    (hstage : self.entry_point.stage = ShaderStage.compute)
    (hls : self.entry_point.computeLocalSize = some ls)
    (hs : self.required_subgroup_size = some s)
    (hwg : computeWorkgroupCheck ls device.properties = .ok w)
    (hc1 : device.enabled_features.subgroup_size_control = true)
    (hc2 : (device.properties.required_subgroup_size_stages.getD
      []).contains_enum ShaderStage.compute = true)
    (hc3 : isPowerOfTwo s = true)
    (hc4 : device.properties.min_subgroup_size.getD 1 ≤ s)
    (hc5 : s ≤ device.properties.max_subgroup_size.getD 128) :
    (s * device.properties.max_compute_workgroup_subgroups.getD 0 <
        ls.x * ls.y * ls.z →
      self.validate device none none =
        .err { problem := "the product of the `local_size_x`, `local_size_y` and `local_size_z` of `entry_point` is greater than the the product of `required_subgroup_size` and the `max_compute_workgroup_subgroups` device limit",
               vuids := ["VUID-VkPipelineShaderStageCreateInfo-pNext-02756"] }) ∧
    (ls.x * ls.y * ls.z ≤
        s * device.properties.max_compute_workgroup_subgroups.getD 0 →
      self.validate device none none = .ok) := by
  obtain ⟨hwprod, hwM, -⟩ := computeWorkgroupCheck_ok_inv ls device.properties w hwg
  subst hwprod
  rcases self with ⟨⟨st, cls⟩, rss⟩
  simp only at hstage hls hs
  subst hstage
  subst hls
  subst hs
  have hiff := subgroup_budget_iff _ s
    (device.properties.max_compute_workgroup_subgroups.getD 0) hwM
  constructor
  · intro hgt
    unfold PipelineShaderStageCreateInfo.validate
    simp only [stageFeatureCheck]
    rw [hwg]
    simp [finishValidate, requiredSubgroupSizeChecks, hc1, hc2, hc3,
      not_lt.mpr hc4, not_lt.mpr hc5, hiff.mpr hgt]
  · intro hle
    unfold PipelineShaderStageCreateInfo.validate
    simp only [stageFeatureCheck]
    rw [hwg]
    have hnot : ¬((checkedMul s
        (device.properties.max_compute_workgroup_subgroups.getD 0)).getD
          U32_MAX < ls.x * ls.y * ls.z) := fun hc =>
      absurd hle (Nat.not_le.mpr (hiff.mp hc))
    simp [finishValidate, requiredSubgroupSizeChecks, hc1, hc2, hc3,
      not_lt.mpr hc4, not_lt.mpr hc5, hnot]

/-- Witness for C5: with `local_size = (32, 32, 1)` (product 1024),
`s = 32` and `max_compute_workgroup_subgroups = 16`, the budget
`32 * 16 = 512 < 1024` is exceeded and `validate` errors; with `s = 64`
the budget `64 * 16 = 1024` suffices and `validate` returns `Ok`. -/
theorem c5_subgroup_budget_witness :
    (PipelineShaderStageCreateInfo.mk ⟨.compute, some ⟨32, 32, 1⟩⟩
        (some 32)).validate devBasic none none =
      .err { problem := "the product of the `local_size_x`, `local_size_y` and `local_size_z` of `entry_point` is greater than the the product of `required_subgroup_size` and the `max_compute_workgroup_subgroups` device limit",
             vuids := ["VUID-VkPipelineShaderStageCreateInfo-pNext-02756"] } ∧
    (PipelineShaderStageCreateInfo.mk ⟨.compute, some ⟨32, 32, 1⟩⟩
        (some 64)).validate devBasic none none = .ok :=
  ⟨(c5_subgroup_budget
      (PipelineShaderStageCreateInfo.mk ⟨.compute, some ⟨32, 32, 1⟩⟩ (some 32))
      devBasic ⟨32, 32, 1⟩ 32 1024 rfl rfl rfl (by rfl) rfl (by decide)
      (by decide) (by decide) (by decide)).1 (by decide),
   (c5_subgroup_budget
      (PipelineShaderStageCreateInfo.mk ⟨.compute, some ⟨32, 32, 1⟩⟩ (some 64))
      devBasic ⟨32, 32, 1⟩ 64 1024 rfl rfl rfl (by rfl) rfl (by decide)
      (by decide) (by decide) (by decide)).2 (by decide)⟩

/-- C7: GPU work is ordered by future chaining.  `render` executes its
built command buffer strictly after the supplied `before_future`, and the
future handed to `present` by `compute_then_render` is the render
submission chained after the compute submission chained after the
swapchain-acquire future. -/
theorem c7_future_chaining :
    (∀ (self : RenderPassPlaceOverFrame) (before_future : GpuFuture)
        (view target : ImageView),
      ∃ cb, self.render before_future view target =
          GpuFuture.commandBufferExecFuture before_future cb ∧
        (self.render before_future view target).before? = some before_future) ∧
    (∀ (wr : VulkanoWindowRenderer) (pl : RenderPipeline) (lc dc : Color)
        (f : GpuFuture),
      compute_then_render wr pl lc dc = some f →
      ∃ imageIndex rcb,
        wr.acquireResult = .ok imageIndex ∧
        f = GpuFuture.commandBufferExecFuture
          (GpuFuture.commandBufferExecFuture
            (GpuFuture.swapchainAcquireFuture imageIndex)
            pl.compute.compute_cb) rcb) := by
  constructor
  · intro self before_future view target
    exact ⟨_, rfl, rfl⟩
  · intro wr pl lc dc f h
    unfold compute_then_render at h
    rcases hws : wr.window_size with ⟨w0, h0⟩
    rw [hws] at h
    simp only [] at h
    split_ifs at h with hz
    cases hacq : wr.acquireResult with
    | error s => rw [hacq] at h; exact Option.noConfusion h
    | ok idx =>
      rw [hacq] at h
      injection h with h'
      subst h'
      exact ⟨idx, _, rfl, rfl⟩

/-- Witness for C7: a concrete frame whose presented future decomposes as
render-after-compute-after-acquire. -/
theorem c7_future_chaining_witness :
    ∃ f, compute_then_render
        (VulkanoWindowRenderer.mk (640, 480) (.ok 5) (ImageView.mk 2 640 480))
        (RenderPipeline.mk
          (GameOfLifeComputePipeline.mk (CommandBuffer.mk [])
            (ImageView.mk 1 640 480))
          (RenderPassPlaceOverFrame.mk
            (PixelsDrawPipeline.mk (fun _ _ => 7))))
        Color.mk Color.mk = some f ∧
      ∃ imageIndex rcb,
        (VulkanoWindowRenderer.mk (640, 480) (.ok 5)
            (ImageView.mk 2 640 480)).acquireResult = .ok imageIndex ∧
        f = GpuFuture.commandBufferExecFuture
          (GpuFuture.commandBufferExecFuture
            (GpuFuture.swapchainAcquireFuture imageIndex)
            (CommandBuffer.mk [])) rcb := by
  refine ⟨_, rfl, ?_⟩
  exact c7_future_chaining.2
    (VulkanoWindowRenderer.mk (640, 480) (.ok 5) (ImageView.mk 2 640 480))
    (RenderPipeline.mk
      (GameOfLifeComputePipeline.mk (CommandBuffer.mk [])
        (ImageView.mk 1 640 480))
      (RenderPassPlaceOverFrame.mk (PixelsDrawPipeline.mk (fun _ _ => 7))))
    Color.mk Color.mk _ rfl

/-- C10: `process_event` returns `true` exactly for a `CloseRequested`
event on the primary window; a `CloseRequested` event on another window
removes that window's renderer and pipeline and returns `false`; every
other event returns `false` (whenever it returns at all). -/
theorem c10_process_event (π : Type) (event : Event π) (app : App)
    (cursor_pos : π) (w1 w2 : Bool) (b : Bool) (app2 : App) (cp : π)
    (w1' w2' : Bool)
    (h : process_event event app cursor_pos w1 w2 =
      some (b, app2, cp, w1', w2')) :
    (b = true ↔ ∃ wid, event = Event.windowEvent wid
        WindowEventKind.closeRequested ∧
      app.windows.primary_window_id = some wid) ∧
    (∀ wid primary,
      event = Event.windowEvent wid WindowEventKind.closeRequested →
      app.windows.primary_window_id = some primary → wid ≠ primary →
      b = false ∧
      app2 = App.remove_pipeline
        { app with windows := app.windows.remove_renderer wid } wid) := by
  cases event with
  | otherEvent =>
    simp only [process_event, Option.some.injEq, Prod.mk.injEq] at h
    obtain ⟨hb, -⟩ := h
    subst hb
    exact ⟨by simp, fun wid primary hev => absurd hev (by simp)⟩
  | windowEvent wid ev =>
    cases ev with
    | closeRequested =>
      simp only [process_event] at h
      cases hp : app.windows.primary_window_id with
      | none => rw [hp] at h; exact Option.noConfusion h
      | some primary =>
        rw [hp] at h
        simp only [] at h
        by_cases hw : wid = primary
        · rw [if_pos hw] at h
          simp only [Option.some.injEq, Prod.mk.injEq] at h
          obtain ⟨hb, happ, -⟩ := h
          subst hb
          subst hw
          constructor
          · simp [hp]
          · intro wid' primary' hev hp' hne
            injection hev with h1 h2
            subst h1
            injection hp' with h3
            exact absurd h3 hne
        · rw [if_neg hw] at h
          simp only [Option.some.injEq, Prod.mk.injEq] at h
          obtain ⟨hb, happ, -⟩ := h
          subst hb
          constructor
          · refine ⟨fun hf => absurd hf (by simp), ?_⟩
            rintro ⟨wid', hev, hpw⟩
            injection hev with h1 h2
            subst h1
            injection hpw with h3
            exact absurd h3.symm hw
          · intro wid' primary' hev hp' hne
            injection hev with h1 h2
            subst h1
            exact ⟨rfl, happ.symm⟩
    | resized =>
      simp only [process_event] at h
      cases hg : app.windows.get_renderer wid with
      | none => rw [hg] at h; exact Option.noConfusion h
      | some r =>
        rw [hg] at h
        simp only [Option.some.injEq, Prod.mk.injEq] at h
        obtain ⟨hb, -⟩ := h
        subst hb
        exact ⟨by simp, fun wid' primary' hev => absurd hev (by simp)⟩
    | scaleFactorChanged =>
      simp only [process_event] at h
      cases hg : app.windows.get_renderer wid with
      | none => rw [hg] at h; exact Option.noConfusion h
      | some r =>
        rw [hg] at h
        simp only [Option.some.injEq, Prod.mk.injEq] at h
        obtain ⟨hb, -⟩ := h
        subst hb
        exact ⟨by simp, fun wid' primary' hev => absurd hev (by simp)⟩
    | cursorMoved p =>
      simp only [process_event, Option.some.injEq, Prod.mk.injEq] at h
      obtain ⟨hb, -⟩ := h
      subst hb
      exact ⟨by simp, fun wid' primary' hev => absurd hev (by simp)⟩
    | mouseInput st btn =>
      simp only [process_event] at h
      cases hp : app.windows.primary_window_id with
      | none => rw [hp] at h; exact Option.noConfusion h
      | some primary =>
        rw [hp] at h
        simp only [] at h
        split_ifs at h with hw <;>
          (simp only [Option.some.injEq, Prod.mk.injEq] at h
           obtain ⟨hb, -⟩ := h
           subst hb
           exact ⟨by simp, fun wid' primary' hev => absurd hev (by simp)⟩)
    | otherWindowEvent =>
      simp only [process_event, Option.some.injEq, Prod.mk.injEq] at h
      obtain ⟨hb, -⟩ := h
      subst hb
      exact ⟨by simp, fun wid' primary' hev => absurd hev (by simp)⟩

/-- Witness for C10: closing the primary window of a concrete app returns
`true`. -/
theorem c10_process_event_witness :
    process_event (π := Unit)
        (Event.windowEvent 0 WindowEventKind.closeRequested)
        (App.mk (VulkanoWindows.mk (some 0) []) []) () false false =
      some (true, App.mk (VulkanoWindows.mk (some 0) []) [], (),
        false, false) ∧
    (true = true ↔ ∃ wid,
      Event.windowEvent (π := Unit) 0 WindowEventKind.closeRequested =
        Event.windowEvent wid WindowEventKind.closeRequested ∧
      (App.mk (VulkanoWindows.mk (some 0) []) []).windows.primary_window_id =
        some wid) := by
  refine ⟨rfl, ?_⟩
  exact (c10_process_event Unit
    (Event.windowEvent 0 WindowEventKind.closeRequested)
    (App.mk (VulkanoWindows.mk (some 0) []) []) () false false true
    (App.mk (VulkanoWindows.mk (some 0) []) []) () false false rfl).1
